import Mathlib

/-!
# Verification of the Jungholm gateway durability layer

Shallow embedding of the offline retry queue (`offline_queue.py`), the
configuration constants (`config.py`) and the session reconciler
(`supabase_client.py`).  Remote-store calls are modelled by oracles: each
network call's outcome (raised exception, returned rows, reported error) is a
field of an environment record, and the embedded functions return, alongside
the Python return value, the resulting offline queue and the trace of
requests issued to the remote store.  Timestamps handled as POSIX floats in
the Python code are modelled as exact rationals (ℚ).
-/

/-! ## config.py -/

/-- `MAX_RETRY_ATTEMPTS = 5` (config.py line 25). -/
def MAX_RETRY_ATTEMPTS : Nat := 5

/-- `RETRY_BACKOFF_BASE = 2` (config.py line 26): exponential backoff of
`2 ^ attempt` seconds. -/
def RETRY_BACKOFF_BASE : Nat := 2

/-! ## Events (offline_queue.py)

An event is the JSON object built by `OfflineQueue.add_event`:
`{"type": ..., "data": ..., "created_at": ..., "attempts": ..., "last_attempt": ...}`.
The `data` dict is one of the two payload shapes the reconciler enqueues
(`{"product_id", "user_id"}`, possibly with the legacy `"instrument_id"` key,
or `{"session_id"}`).  `created_at` and `last_attempt` are ISO timestamps in
the file; the code only ever compares them after converting to POSIX seconds
(`datetime.fromisoformat(...).timestamp()`), so they are modelled directly as
rationals. -/

inductive EventData where
  | startData (product_id : Option String) (instrument_id : Option String)
      (user_id : Option String)
  | stopData (session_id : String)
deriving DecidableEq

structure Event where
  type : String
  data : EventData
  created_at : ℚ
  attempts : Nat
  last_attempt : Option ℚ
deriving DecidableEq

/-! ## offline_queue.py -/

/-- `OfflineQueue.add_event` (lines 41-52): append a fresh event with
`attempts = 0` and `last_attempt = None`, then persist. -/
def add_event (q : List Event) (event_type : String) (d : EventData) (now : ℚ) :
    List Event :=
  q ++ [{ type := event_type, data := d, created_at := now, attempts := 0,
          last_attempt := none }]

/-- The per-event readiness test inside `OfflineQueue.get_pending_events`
(lines 59-72): skip events whose attempts have reached the ceiling; if
`last_attempt` is set (truthy), skip the event while `now - last_attempt`
is still below `RETRY_BACKOFF_BASE ** attempts`. -/
def eventReady (now : ℚ) (e : Event) : Bool :=
  if MAX_RETRY_ATTEMPTS ≤ e.attempts then false
  else
    match e.last_attempt with
    | none => true
    | some la =>
        let delay : ℚ := (RETRY_BACKOFF_BASE : ℚ) ^ e.attempts
        if now - la < delay then false else true

/-- `OfflineQueue.get_pending_events` (lines 54-74): the loop appends, in
queue order, exactly the events passing `eventReady`. -/
def get_pending_events (q : List Event) (now : ℚ) : List Event :=
  q.filter (eventReady now)

/-- Python `list.remove` (used at line 81): delete the first element equal to
the argument. -/
def pyRemove : List Event → Event → List Event
  | [], _ => []
  | x :: xs, e => if x = e then xs else x :: pyRemove xs e

/-- The failed-attempt mutation of `OfflineQueue.mark_attempt` (lines 86-87):
`attempts += 1`, `last_attempt = now`. -/
def failEvent (e : Event) (now : ℚ) : Event :=
  { e with attempts := e.attempts + 1, last_attempt := some now }

/-- In-place mutation of the event object seen through the queue: the dict
aliased by the caller is the first queue entry equal to it (events handed out
by `get_pending_events` alias the queue's own dicts).  An absent event leaves
the queue unchanged (the mutation then only touches the caller's copy). -/
def updateFirst : List Event → Event → ℚ → List Event
  | [], _, _ => []
  | x :: xs, e, now => if x = e then failEvent e now :: xs else x :: updateFirst xs e now

/-- `OfflineQueue.mark_attempt` (lines 76-89).  Returns the new queue and
whether `_save_queue` was invoked.  On success the event is removed only if
`event in self.queue`; on failure the aliased event is mutated and the queue
is always persisted. -/
def mark_attempt (q : List Event) (e : Event) (success : Bool) (now : ℚ) :
    List Event × Bool :=
  if success then
    if e ∈ q then (pyRemove q e, true) else (q, false)
  else
    (updateFirst q e now, true)

/-- `OfflineQueue.process_queue` (lines 91-106): compute the pending list
once, then for each pending event run the processor — any exception from it
is caught and treated as a failed attempt — and fold the resulting
`mark_attempt` mutations over the queue, counting successes.  A processor is
modelled as `Event → Except Unit Bool`: `.error ()` is a raised exception. -/
def process_queue (q : List Event) (proc : Event → Except Unit Bool) (now : ℚ) :
    List Event × Nat :=
  (get_pending_events q now).foldl
    (fun acc e =>
      match proc e with
      | .ok true => ((mark_attempt acc.1 e true now).1, acc.2 + 1)
      | .ok false => ((mark_attempt acc.1 e false now).1, acc.2)
      | .error _ => ((mark_attempt acc.1 e false now).1, acc.2))
    (q, 0)

/-- `OfflineQueue.clear_failed_events` (lines 108-116): keep events with
`attempts < MAX_RETRY_ATTEMPTS`, return the new queue and the number
removed. -/
def clear_failed_events (q : List Event) : List Event × Nat :=
  let initial_count := q.length
  let q' := q.filter (fun e => decide (e.attempts < MAX_RETRY_ATTEMPTS))
  (q', initial_count - q'.length)

/-- `OfflineQueue._load_queue` (lines 21-31).  The disk state is modelled by
the outcome of reading and `json.load`-ing the file: `none` is a missing
file, `some (.error m)` a file whose content raised during parsing, and
`some (.ok q)` a successfully parsed queue. -/
def load_queue : Option (Except String (List Event)) → List Event
  | none => []
  | some (.error _) => []
  | some (.ok q) => q

/-! ## Python datetimes

`datetime` values are modelled by their seven naive components plus an
optional UTC offset in minutes (`tzinfo`): `offsetMinutes = some 0` is
`timezone.utc`, `none` is a naive datetime. -/

structure NaiveDT where
  year : Nat
  month : Nat
  day : Nat
  hour : Nat
  minute : Nat
  second : Nat
  microsecond : Nat
deriving DecidableEq

structure PyDateTime where
  dt : NaiveDT
  offsetMinutes : Option Int
deriving DecidableEq

/-- Days between a civil date and 1970-01-01 (proleptic Gregorian), the
standard civil-from-days inversion used to realise `datetime` subtraction.
All intermediate quantities are non-negative naturals for years ≥ 1, so the
rounding convention of the divisions is immaterial. -/
def daysFromCivil (y m d : Nat) : Int :=
  let y' := if m ≤ 2 then y - 1 else y
  let era := y' / 400
  let yoe := y' - era * 400
  let mp := if 2 < m then m - 3 else m + 9
  let doy := (153 * mp + 2) / 5 + d - 1
  let doe := yoe * 365 + yoe / 4 - yoe / 100 + doy
  ((era * 146097 + doe : Nat) : Int) - 719468

/-- The instant a timezone-aware datetime denotes, in seconds since the
epoch, as an exact rational (microseconds contribute a fractional part).
`datetime` subtraction of two aware values equals subtraction of their
instants. -/
def instantQ (t : PyDateTime) : ℚ :=
  (daysFromCivil t.dt.year t.dt.month t.dt.day : ℚ) * 86400
    + (t.dt.hour : ℚ) * 3600 + (t.dt.minute : ℚ) * 60 + (t.dt.second : ℚ)
    + (t.dt.microsecond : ℚ) / 1000000
    - (t.offsetMinutes.getD 0 : ℚ) * 60

/-- Python `int()` applied to a real number: truncation toward zero. -/
def pyInt (x : ℚ) : ℤ := if 0 ≤ x then ⌊x⌋ else ⌈x⌉

/-! ## ISO-8601 strings and `datetime.fromisoformat`

Raw timestamp strings are modelled as character lists. -/

abbrev PyStr := List Char

/-- `start_time.replace('Z', '+00:00')` (supabase_client.py line 217):
Python `str.replace` with a one-character pattern substitutes every
occurrence of that character. -/
def replaceZ : PyStr → PyStr
  | [] => []
  | c :: cs => (if c = 'Z' then "+00:00".toList else [c]) ++ replaceZ cs

/-- Line 217 in full: `start_time.replace('Z', '+00:00') if 'Z' in
start_time else start_time`. -/
def normalizeTs (cs : PyStr) : PyStr :=
  if 'Z' ∈ cs then replaceZ cs else cs

def digitVal (c : Char) : Nat := c.toNat - 48

/-- Read exactly `k` decimal digits into an accumulator. -/
def readFixedNat : Nat → PyStr → Nat → Option (Nat × PyStr)
  | 0, cs, acc => some (acc, cs)
  | _ + 1, [], _ => none
  | k + 1, c :: cs, acc =>
      if c.isDigit then readFixedNat k cs (acc * 10 + digitVal c) else none

def expectChar (c : Char) : PyStr → Option PyStr
  | [] => none
  | x :: xs => if x = c then some xs else none

/-- The date/time separator accepted by `fromisoformat`. -/
def expectSep : PyStr → Option PyStr
  | [] => none
  | c :: cs => if c = 'T' ∨ c = ' ' then some cs else none

/-- Optional fractional-second part: `'.'` followed by one to six digits,
scaled to microseconds. -/
def readFrac (cs : PyStr) : Option (Nat × PyStr) :=
  match cs with
  | '.' :: rest =>
      let digs := rest.takeWhile Char.isDigit
      if digs.length = 0 ∨ 6 < digs.length then none
      else
        some (digs.foldl (fun a c => a * 10 + digitVal c) 0 * 10 ^ (6 - digs.length),
          rest.drop digs.length)
  | _ => some (0, cs)

/-- Optional UTC offset suffix `±HH:MM`, in minutes. -/
def readOffset : PyStr → Option (Option Int × PyStr)
  | [] => some (none, [])
  | '+' :: rest => do
      let (h, rest) ← readFixedNat 2 rest 0
      let rest ← expectChar ':' rest
      let (m, rest) ← readFixedNat 2 rest 0
      some (some ((h : Int) * 60 + m), rest)
  | '-' :: rest => do
      let (h, rest) ← readFixedNat 2 rest 0
      let rest ← expectChar ':' rest
      let (m, rest) ← readFixedNat 2 rest 0
      some (some (-((h : Int) * 60 + m)), rest)
  | _ => none

/-- `datetime.fromisoformat` on the `YYYY-MM-DD{T| }HH:MM:SS[.f{1-6}][±HH:MM]`
fragment the gateway emits; `none` models the `ValueError` raised on any
other input. -/
def fromisoformat (cs : PyStr) : Option PyDateTime := do
  let (y, cs) ← readFixedNat 4 cs 0
  let cs ← expectChar '-' cs
  let (mo, cs) ← readFixedNat 2 cs 0
  let cs ← expectChar '-' cs
  let (d, cs) ← readFixedNat 2 cs 0
  let cs ← expectSep cs
  let (h, cs) ← readFixedNat 2 cs 0
  let cs ← expectChar ':' cs
  let (mi, cs) ← readFixedNat 2 cs 0
  let cs ← expectChar ':' cs
  let (s, cs) ← readFixedNat 2 cs 0
  let (us, cs) ← readFrac cs
  let (off, cs) ← readOffset cs
  if cs = [] ∧ 1 ≤ y ∧ 1 ≤ mo ∧ mo ≤ 12 ∧ 1 ≤ d ∧ d ≤ 31 ∧ h ≤ 23 ∧ mi ≤ 59 ∧ s ≤ 59 then
    some { dt := { year := y, month := mo, day := d, hour := h, minute := mi,
                   second := s, microsecond := us },
           offsetMinutes := off }
  else none

/-! ## Remote store requests (supabase_client.py)

The trace of table operations `start_session`/`stop_session` issue to the
remote gateway. -/

/-- Row shape of the placeholder booking insert (lines 147-155). -/
structure BookingInsertRow where
  user_id : String
  product_id : String
  start_time : PyDateTime
  end_time : PyDateTime
  status : String
  legal_agreement_accepted : Bool
  notes : String
deriving DecidableEq

/-- Row shape of the consumption insert (lines 166-172). -/
structure ConsInsertRow where
  product_id : String
  user_id : String
  booking_id : Option String
  start_time : PyDateTime
  status : String
deriving DecidableEq

/-- Row shape of the `stop_session` update payload (lines 227-231). -/
structure UpdateReq where
  end_time : PyDateTime
  duration_seconds : ℤ
  status : String
deriving DecidableEq

inductive GwRequest where
  | profileSelect (id : String)
  | bookingSelect (user_id : String) (product_id : String) (status : String)
      (lteStart : PyDateTime) (gteEnd : PyDateTime)
  | bookingInsert (row : BookingInsertRow)
  | consumptionInsert (row : ConsInsertRow)
deriving DecidableEq

/-- A returned booking row; only its `id` is consumed (lines 140, 162). -/
structure BookingRow where
  id : String
deriving DecidableEq

/-- A returned consumption-insert row; line 177 reads `.get("id")`. -/
structure ConsRow where
  id : Option String
deriving DecidableEq

/-- Oracle outcomes for the remote calls of `start_session`, in program
order.  `.error m` is a raised exception with message `m`; `.ok rows` is a
response with `response.data = rows`.  `user` is the value of
`get_current_user()` (which swallows its own exceptions and yields `None`),
and `stored_user_id` is `storage.get_user_id()` (likewise never raises). -/
structure StartEnv where
  user : Option String
  stored_user_id : Option String
  profileRows : Except String (List String)
  bookingRows : Except String (List BookingRow)
  bookingInsertRows : Except String (List BookingRow)
  consumptionInsertRows : Except String (List ConsRow)

/-- The event payload enqueued by `start_session`'s except-branch
(lines 187-190). -/
def startRetryEvent (q : List Event) (product_id : String) (uid : Option String)
    (nowTs : ℚ) : List Event :=
  add_event q "start_session" (.startData (some product_id) none uid) nowTs

/-- Final step of `start_session` (lines 165-181): build and insert the
consumption row, then interpret the response. -/
def startConsumptionStep (env : StartEnv) (q : List Event) (start_time : PyDateTime)
    (nowTs : ℚ) (product_id : String) (profile_id : String)
    (booking_id : Option String) (reqs : List GwRequest) :
    (Bool × Option String × Option String) × List Event × List GwRequest :=
  let cRow : ConsInsertRow :=
    { product_id := product_id, user_id := profile_id, booking_id := booking_id,
      start_time := start_time, status := "active" }
  let reqs := reqs ++ [GwRequest.consumptionInsert cRow]
  match env.consumptionInsertRows with
  | .error msg =>
      ((false, none, some msg), startRetryEvent q product_id env.stored_user_id nowTs, reqs)
  | .ok [] => ((false, none, some "Failed to create consumption record"), q, reqs)
  | .ok (c :: _) => ((true, c.id, none), q, reqs)

/-- `SupabaseClient.start_session` (lines 103-191).  Returns the Python
result triple `(success, session_id, error_message)`, the offline queue
after the call, and the trace of gateway requests issued. -/
def start_session (env : StartEnv) (q : List Event) (now : NaiveDT) (nowTs : ℚ)
    (product_id : String) :
    (Bool × Option String × Option String) × List Event × List GwRequest :=
  match env.user with
  | none => ((false, none, some "Not authenticated"), q, [])
  | some profile_id =>
    let reqs := [GwRequest.profileSelect profile_id]
    match env.profileRows with
    | .error msg =>
        ((false, none, some msg), startRetryEvent q product_id env.stored_user_id nowTs, reqs)
    | .ok [] => ((false, none, some "User profile not found"), q, reqs)
    | .ok (_ :: _) =>
      let start_time : PyDateTime := { dt := now, offsetMinutes := some 0 }
      let reqs := reqs ++
        [GwRequest.bookingSelect profile_id product_id "confirmed" start_time start_time]
      match env.bookingRows with
      | .error msg =>
          ((false, none, some msg), startRetryEvent q product_id env.stored_user_id nowTs, reqs)
      | .ok (b :: _) =>
          startConsumptionStep env q start_time nowTs product_id profile_id (some b.id) reqs
      | .ok [] =>
        let end_time : PyDateTime :=
          { dt := { now with hour := 23, minute := 59, second := 59 }, offsetMinutes := some 0 }
        let bRow : BookingInsertRow :=
          { user_id := profile_id, product_id := product_id, start_time := start_time,
            end_time := end_time, status := "cancelled", legal_agreement_accepted := true,
            notes := "Gateway session - automatic booking placeholder" }
        let reqs := reqs ++ [GwRequest.bookingInsert bRow]
        match env.bookingInsertRows with
        | .error msg =>
            ((false, none, some msg), startRetryEvent q product_id env.stored_user_id nowTs, reqs)
        | .ok [] => ((false, none, some "Failed to create gateway booking"), q, reqs)
        | .ok (nb :: _) =>
            startConsumptionStep env q start_time nowTs product_id profile_id (some nb.id) reqs

/-! ## stop_session -/

/-- The consumption row fetched at line 201; only `start_time` and
`end_time` are consumed, as the raw strings stored remotely. -/
structure ConsRowR where
  start_time : Option PyStr
  end_time : Option PyStr
deriving DecidableEq

/-- The verification row fetched at line 249. -/
structure VerifyRowR where
  end_time : Option PyStr
deriving DecidableEq

/-- Oracle outcomes for the three remote calls of `stop_session`.
`updateError` is the update execution: `.error m` a raised exception,
`.ok (some m)` a response with a truthy `error` attribute, `.ok none` an
accepted update. -/
structure StopEnv where
  consRows : Except String (List ConsRowR)
  updateError : Except String (Option String)
  verifyRows : Except String (List VerifyRowR)

/-- The event payload enqueued by `stop_session`'s failure branches
(lines 265-267, 274-276). -/
def stopRetryEvent (q : List Event) (session_id : String) (nowTs : ℚ) : List Event :=
  add_event q "stop_session" (.stopData session_id) nowTs

/-- Lines 221-222: a naive parsed `start_time` is reinterpreted as UTC. -/
def awareFix (t : PyDateTime) : PyDateTime :=
  if t.offsetMinutes = none then { t with offsetMinutes := some 0 } else t

/-- Python truthiness of an optional string (`.get(...)` result): `None`
and the empty string are falsy. -/
def truthyStr : Option PyStr → Bool
  | none => false
  | some s => !s.isEmpty

/-- `SupabaseClient.stop_session` (lines 193-277).  Returns the Python
result pair `(success, error_message)`, the offline queue after the call,
and the update payload sent to the gateway (if execution reached it). -/
def stop_session (env : StopEnv) (q : List Event) (now : NaiveDT) (nowTs : ℚ)
    (session_id : String) :
    (Bool × Option String) × List Event × Option UpdateReq :=
  match env.consRows with
  | .error msg => ((false, some msg), stopRetryEvent q session_id nowTs, none)
  | .ok [] => ((false, some "Consumption session not found"), q, none)
  | .ok (consumption :: _) =>
    match consumption.start_time with
    | none => ((false, some "Consumption session has no start time"), q, none)
    | some raw =>
      let end_time_dt : PyDateTime := { dt := now, offsetMinutes := some 0 }
      match fromisoformat (normalizeTs raw) with
      | none =>
          -- `datetime.fromisoformat` raised ValueError; the outer handler
          -- (lines 270-277) enqueues a retry and surfaces the message.
          ((false, some "Invalid isoformat string"), stopRetryEvent q session_id nowTs, none)
      | some start_dt =>
        let start_dt := awareFix start_dt
        let duration_seconds := pyInt (instantQ end_time_dt - instantQ start_dt)
        let update_data : UpdateReq :=
          { end_time := end_time_dt, duration_seconds := duration_seconds,
            status := "completed" }
        match env.updateError with
        | .error msg =>
            ((false, some ("Update failed: " ++ msg)),
             stopRetryEvent q session_id nowTs, some update_data)
        | .ok (some msg) =>
            -- Response carried a truthy `error` attribute: plain return at
            -- line 244, no enqueue.
            ((false, some ("Update failed: " ++ msg)), q, some update_data)
        | .ok none =>
          match env.verifyRows with
          | .error msg =>
              -- The verify select raised; caught at line 261, enqueues.
              ((false, some ("Update failed: " ++ msg)),
               stopRetryEvent q session_id nowTs, some update_data)
          | .ok [] => ((false, some "Could not verify update"), q, some update_data)
          | .ok (v :: _) =>
              if truthyStr v.end_time = true ∧ v.end_time ≠ consumption.end_time then
                ((true, none), q, some update_data)
              else
                ((false, some "Update verification failed"), q, some update_data)

/-! ## process_offline_queue (lines 279-303)

Session handlers are modelled as oracles `String → Except Unit Bool`
(`start_session`/`stop_session` calls, which may in general raise). -/

/-- Python `a or b` on optional strings, by truthiness. -/
def orStr : Option String → Option String → Option String
  | some s, b => if s.isEmpty then b else some s
  | none, b => b

/-- `process_start_session` (lines 281-288): read `product_id` (falling back
to the legacy `instrument_id` key) and invoke the handler when truthy. -/
def process_start_session (hStart : String → Except Unit Bool) (e : Event) :
    Except Unit Bool :=
  match e.data with
  | .startData pid iid _ =>
      match orStr pid iid with
      | some p => if p.isEmpty then .ok false else hStart p
      | none => .ok false
  | _ => .ok false

/-- `process_stop_session` (lines 290-293): `data["session_id"]` raises
`KeyError` when the payload lacks that key. -/
def process_stop_session (hStop : String → Except Unit Bool) (e : Event) :
    Except Unit Bool :=
  match e.data with
  | .stopData sid => hStop sid
  | _ => .error ()

/-- The `processor` closure (lines 295-301): route on `event["type"]`;
unknown types return `False`. -/
def processor (hStart hStop : String → Except Unit Bool) (e : Event) :
    Except Unit Bool :=
  if e.type = "start_session" then process_start_session hStart e
  else if e.type = "stop_session" then process_stop_session hStop e
  else .ok false

/-! ## Spec-side formulations and concrete sample data -/

/-- Eligibility as the spec words it: `attempts < MAX_RETRY_ATTEMPTS` AND
(`last_attempt_at` unset OR `now − last_attempt_at ≥ backoff(attempts)`). -/
def isPendingSpec (now : ℚ) (e : Event) : Bool :=
  decide (e.attempts < MAX_RETRY_ATTEMPTS) &&
    (match e.last_attempt with
     | none => true
     | some la => decide ((RETRY_BACKOFF_BASE : ℚ) ^ e.attempts ≤ now - la))

def evFresh : Event :=
  { type := "start_session", data := .startData (some "P1") none (some "U1"),
    created_at := 0, attempts := 0, last_attempt := none }

def evMaxed : Event :=
  { type := "stop_session", data := .stopData "S1", created_at := 0,
    attempts := 5, last_attempt := some 50 }

def evAbsent : Event :=
  { type := "stop_session", data := .stopData "S7", created_at := 3,
    attempts := 1, last_attempt := some 10 }

def evGone : Event :=
  { type := "stop_session", data := .stopData "S9", created_at := 1,
    attempts := 0, last_attempt := none }

def evUnknown : Event :=
  { type := "legacy_event", data := .stopData "S2", created_at := 0,
    attempts := 0, last_attempt := none }

def nowDT : NaiveDT :=
  { year := 2024, month := 5, day := 1, hour := 12, minute := 0, second := 0,
    microsecond := 0 }

def laterDT : NaiveDT :=
  { year := 2024, month := 5, day := 1, hour := 12, minute := 2, second := 5,
    microsecond := 0 }

def rawStart : PyStr := "2024-05-01T12:00:00+00:00".toList

def startDT : PyDateTime :=
  { dt := nowDT, offsetMinutes := some 0 }

/-- Environment where the placeholder-booking insert returns no rows. -/
def envBookingEmpty : StartEnv :=
  { user := some "U1", stored_user_id := some "U1", profileRows := .ok ["U1"],
    bookingRows := .ok [], bookingInsertRows := .ok [],
    consumptionInsertRows := .ok [] }

/-- Environment where the placeholder-booking insert raises. -/
def envBookingRaise : StartEnv :=
  { user := some "U1", stored_user_id := some "U1", profileRows := .ok ["U1"],
    bookingRows := .ok [], bookingInsertRows := .error "network down",
    consumptionInsertRows := .ok [] }

/-- Environment for the happy placeholder path of Scenario D. -/
def envPlaceholder : StartEnv :=
  { user := some "U1", stored_user_id := some "U1", profileRows := .ok ["U1"],
    bookingRows := .ok [], bookingInsertRows := .ok [{ id := "B7" }],
    consumptionInsertRows := .ok [{ id := some "C9" }] }

/-- Environment where the gateway accepts the update but the re-read shows
`end_time` unchanged. -/
def envVerifyFail : StopEnv :=
  { consRows := .ok [{ start_time := some rawStart, end_time := some "E0".toList }],
    updateError := .ok none,
    verifyRows := .ok [{ end_time := some "E0".toList }] }

/-- Environment for Scenario E: a well-formed active session, accepted
update, verification showing the new `end_time`. -/
def envScenarioE : StopEnv :=
  { consRows := .ok [{ start_time := some rawStart, end_time := none }],
    updateError := .ok none,
    verifyRows := .ok [{ end_time := some "2024-05-01T12:02:05+00:00".toList }] }

/-! ## Helper lemmas -/

theorem pyRemove_append (l1 l2 : List Event) (e : Event) (h : e ∉ l1) :
    pyRemove (l1 ++ e :: l2) e = l1 ++ l2 := by
  induction l1 with
  | nil => simp [pyRemove]
  | cons x xs ih =>
      simp only [List.mem_cons, not_or] at h
      have hx : ¬ x = e := fun hx => h.1 hx.symm
      simp only [List.cons_append, pyRemove, List.append_eq, if_neg hx, ih h.2]

theorem updateFirst_append (l1 l2 : List Event) (e : Event) (now : ℚ) (h : e ∉ l1) :
    updateFirst (l1 ++ e :: l2) e now = l1 ++ failEvent e now :: l2 := by
  induction l1 with
  | nil => simp [updateFirst]
  | cons x xs ih =>
      simp only [List.mem_cons, not_or] at h
      have hx : ¬ x = e := fun hx => h.1 hx.symm
      simp only [List.cons_append, updateFirst, List.append_eq, if_neg hx, ih h.2]

theorem foldl_failEvent_attempts (ts : List ℚ) (e : Event) :
    (ts.foldl failEvent e).attempts = e.attempts + ts.length := by
  induction ts generalizing e with
  | nil => simp
  | cons t ts ih => simp [List.foldl_cons, ih, failEvent]; omega

theorem maxed_not_ready (now : ℚ) (e : Event) (h : MAX_RETRY_ATTEMPTS ≤ e.attempts) :
    eventReady now e = false := by
  simp [eventReady, h]

theorem maxed_not_pending (q : List Event) (now : ℚ) (e : Event)
    (h : MAX_RETRY_ATTEMPTS ≤ e.attempts) :
    e ∉ get_pending_events q now := by
  intro hmem
  have := (List.mem_filter.mp hmem).2
  rw [maxed_not_ready now e h] at this
  exact Bool.false_ne_true this

theorem eventReady_eq_spec (now : ℚ) (e : Event) :
    eventReady now e = isPendingSpec now e := by
  unfold eventReady isPendingSpec
  by_cases h : MAX_RETRY_ATTEMPTS ≤ e.attempts
  · simp [h, Nat.not_lt.mpr h]
  · rcases e.last_attempt with _ | la
    · simp [h, Nat.lt_of_not_le h]
    · by_cases h2 : now - la < (RETRY_BACKOFF_BASE : ℚ) ^ e.attempts
      · simp [h, h2, Nat.lt_of_not_le h, not_le.mpr h2]
      · simp [h, h2, Nat.lt_of_not_le h, not_lt.mp h2]

theorem replaceZ_trailing (base : PyStr) (h : 'Z' ∉ base) :
    replaceZ (base ++ ['Z']) = base ++ "+00:00".toList := by
  induction base with
  | nil => rfl
  | cons c cs ih =>
      simp only [List.mem_cons, not_or] at h
      have hx : ¬ c = 'Z' := fun hx => h.1 hx.symm
      simp only [List.cons_append, replaceZ, List.append_eq, if_neg hx, ih h.2,
        List.nil_append, List.singleton_append]

theorem normalizeTs_trailing (base : PyStr) (h : 'Z' ∉ base) :
    normalizeTs (base ++ ['Z']) = base ++ "+00:00".toList := by
  have hmem : 'Z' ∈ base ++ ['Z'] := List.mem_append_right base (by simp)
  rw [normalizeTs, if_pos hmem, replaceZ_trailing base h]


/-! ## Claim theorems: durable queue -/

/-- C2: `get_pending_events` returns, in original queue order, exactly the
events with `attempts < MAX_RETRY_ATTEMPTS` and (`last_attempt` unset or
`now - last_attempt ≥ RETRY_BACKOFF_BASE ^ attempts` seconds); an event with
`attempts = MAX_RETRY_ATTEMPTS` is never returned regardless of
`last_attempt`. -/
theorem c2_get_pending_exact (q : List Event) (now : ℚ) :
    get_pending_events q now = q.filter (isPendingSpec now) ∧
    ∀ e, e.attempts = MAX_RETRY_ATTEMPTS → e ∉ get_pending_events q now := by
  constructor
  · unfold get_pending_events
    exact List.filter_congr (fun e _ => eventReady_eq_spec now e)
  · intro e he
    exact maxed_not_pending q now e (le_of_eq he.symm)

/-- Witness for C2 at a concrete queue: the filter identity holds and the
maxed-out event is excluded even though its backoff has long elapsed. -/
theorem c2_witness :
    get_pending_events [evFresh, evMaxed] 1000 =
      List.filter (isPendingSpec 1000) [evFresh, evMaxed] ∧
    evMaxed ∉ get_pending_events [evFresh, evMaxed] 1000 :=
  ⟨(c2_get_pending_exact [evFresh, evMaxed] 1000).1,
   (c2_get_pending_exact [evFresh, evMaxed] 1000).2 evMaxed (by decide)⟩

/-- C3 counterexample: the claim quantifies over every queue state and every
event, but when the event is absent (here: the empty queue)
`mark_attempt(e, true)` removes nothing and never persists, contradicting
"removes exactly one event equal to e ... then persists". -/
theorem c3_counterexample :
    (mark_attempt [] evGone true 0).1 = [] ∧ (mark_attempt [] evGone true 0).2 = false := by
  decide

/-- C3 amended: provided the event is present in the queue,
`mark_attempt(e, true)` removes exactly the first occurrence equal to `e`,
leaves all other events untouched and persists; `mark_attempt(e, false)`
rewrites the aliased occurrence to `failEvent e now`, which has `attempts`
incremented by exactly one and `last_attempt` set to the call time, and
persists; `MAX_RETRY_ATTEMPTS` failed attempts starting from `attempts = 0`
drive `attempts` to the ceiling, after which the event is permanently
ineligible for `get_pending_events`. -/
theorem c3_mark_attempt (l1 l2 : List Event) (e : Event) (now : ℚ)
    (h1 : e ∉ l1) :
    mark_attempt (l1 ++ e :: l2) e true now = (l1 ++ l2, true) ∧
    (∀ q, mark_attempt q e false now = (updateFirst q e now, true)) ∧
    (failEvent e now).attempts = e.attempts + 1 ∧
    (failEvent e now).last_attempt = some now ∧
    updateFirst (l1 ++ e :: l2) e now = l1 ++ failEvent e now :: l2 ∧
    (∀ (e' : Event) (ts : List ℚ), e'.attempts = 0 →
      ts.length = MAX_RETRY_ATTEMPTS →
      (ts.foldl failEvent e').attempts = MAX_RETRY_ATTEMPTS) ∧
    (∀ (e' : Event) (q : List Event) (now' : ℚ),
      MAX_RETRY_ATTEMPTS ≤ e'.attempts → e' ∉ get_pending_events q now') := by
  refine ⟨?_, fun q => rfl, rfl, rfl, updateFirst_append l1 l2 e now h1, ?_, ?_⟩
  · have hmem : e ∈ l1 ++ e :: l2 := List.mem_append_right l1 (List.mem_cons_self e l2)
    rw [mark_attempt, if_pos rfl, if_pos hmem, pyRemove_append l1 l2 e h1]
  · intro e' ts h0 hlen
    rw [foldl_failEvent_attempts, h0, hlen, Nat.zero_add]
  · intro e' q now' hmax
    exact maxed_not_pending q now' e' hmax

/-- Witness for C3 at a concrete two-event queue. -/
theorem c3_witness :
    mark_attempt [evFresh, evAbsent] evAbsent true 0 = ([evFresh], true) ∧
    mark_attempt [evFresh, evAbsent] evAbsent false 7 =
      (updateFirst [evFresh, evAbsent] evAbsent 7, true) ∧
    (failEvent evAbsent 7).attempts = 2 :=
  ⟨(c3_mark_attempt [evFresh] [] evAbsent 0 (by decide)).1,
   (c3_mark_attempt [evFresh] [] evAbsent 7 (by decide)).2.1 [evFresh, evAbsent],
   (c3_mark_attempt [evFresh] [] evAbsent 7 (by decide)).2.2.1⟩

/-- C8: `clear_failed_events` keeps, in original order, exactly the events
with `attempts < MAX_RETRY_ATTEMPTS` (equivalently: removes exactly those
with `attempts ≥ MAX_RETRY_ATTEMPTS`) and returns the number removed. -/
theorem c8_clear_failed (q : List Event) :
    (clear_failed_events q).1 =
      q.filter (fun e => decide (e.attempts < MAX_RETRY_ATTEMPTS)) ∧
    (clear_failed_events q).2 =
      (q.filter (fun e => decide (MAX_RETRY_ATTEMPTS ≤ e.attempts))).length ∧
    (clear_failed_events q).1.Sublist q := by
  refine ⟨rfl, ?_, List.filter_sublist q⟩
  have hsplit := List.length_eq_length_filter_add
    (l := q) (fun e => decide (e.attempts < MAX_RETRY_ATTEMPTS))
  have hcongr :
      q.filter (fun e => !decide (e.attempts < MAX_RETRY_ATTEMPTS)) =
      q.filter (fun e => decide (MAX_RETRY_ATTEMPTS ≤ e.attempts)) := by
    refine List.filter_congr (fun e _ => ?_)
    rcases Nat.lt_or_ge e.attempts MAX_RETRY_ATTEMPTS with h | h
    · simp [h, Nat.not_le.mpr h]
    · simp [h, Nat.not_lt.mpr h]
  show q.length - (q.filter (fun e => decide (e.attempts < MAX_RETRY_ATTEMPTS))).length
      = (q.filter (fun e => decide (MAX_RETRY_ATTEMPTS ≤ e.attempts))).length
  rw [← hcongr]
  omega

/-- C9: a missing persisted file and a file whose content raises during
parsing both load as the empty queue; `load_queue` is total, so no error
reaches the caller. -/
theorem c9_load_fallback :
    load_queue none = [] ∧ ∀ m : String, load_queue (some (.error m)) = [] :=
  ⟨rfl, fun _ => rfl⟩

/-- C10: when the event is not in the queue, the success branch of
`mark_attempt` leaves the queue unchanged and performs no disk write. -/
theorem c10_success_absent_noop (q : List Event) (e : Event) (now : ℚ)
    (h : e ∉ q) :
    mark_attempt q e true now = (q, false) := by
  rw [mark_attempt, if_pos rfl, if_neg h]

/-- Witness for C10 at a concrete queue not containing the event. -/
theorem c10_witness : mark_attempt [evFresh] evAbsent true 0 = ([evFresh], false) :=
  c10_success_absent_noop [evFresh] evAbsent 0 (by decide)

/-! ## Claim theorems: dispatcher -/

/-- C5: the dispatcher returns `False` for any event whose type is neither
`start_session` nor `stop_session` (so unknown kinds count as ordinary
failed attempts), and `process_queue` behaves identically whether a handler
raises or returns `False`: raised exceptions are caught, recorded as failed
attempts via `mark_attempt(event, False)`, and never escape to the caller
(the fold is total). -/
theorem c5_dispatcher :
    (∀ (hStart hStop : String → Except Unit Bool) (e : Event),
        e.type ≠ "start_session" → e.type ≠ "stop_session" →
        processor hStart hStop e = .ok false) ∧
    (∀ (q : List Event) (proc : Event → Except Unit Bool) (now : ℚ),
        process_queue q proc now =
          process_queue q
            (fun e => match proc e with
                      | .error _ => .ok false
                      | .ok b => .ok b) now) := by
  constructor
  · intro hStart hStop e h1 h2
    rw [processor, if_neg h1, if_neg h2]
  · intro q proc now
    unfold process_queue
    congr 1
    funext acc e
    rcases hp : proc e with u | b
    · simp only [hp]
    · cases b <;> simp only [hp]

/-- Witness for C5: an unrecognised legacy event kind is dispatched to
`False` even with handlers that would succeed. -/
theorem c5_witness :
    processor (fun _ => .ok true) (fun _ => .ok true) evUnknown = .ok false :=
  c5_dispatcher.1 (fun _ => .ok true) (fun _ => .ok true) evUnknown
    (by decide) (by decide)

/-! ## Claim theorems: start_session -/

/-- C1 counterexample: a failure at step 5 (the placeholder-booking insert
returns no rows) is surfaced as "Failed to create gateway booking" while the
offline queue stays empty — no `StartSession` event is enqueued, contrary to
the claim that every step 3-6 failure enqueues before surfacing. -/
theorem c1_counterexample :
    (start_session envBookingEmpty [] nowDT 0 "P1").1 =
      (false, none, some "Failed to create gateway booking") ∧
    (start_session envBookingEmpty [] nowDT 0 "P1").2.1 = [] := by
  decide

/-- C1 amended: `start_session` enqueues a `StartSession` event carrying
`{product_id, user_id}` before surfacing the error exactly when a remote
call raises (profile lookup, booking lookup, placeholder insert or
consumption insert); the `NotAuthenticated` and `ProfileNotFound` outcomes
never enqueue, and neither do the failures reported through empty insert
responses ("Failed to create gateway booking", "Failed to create consumption
record"). -/
theorem c1_enqueue_policy (env : StartEnv) (q : List Event) (now : NaiveDT)
    (nowTs : ℚ) (pid : String) :
    (env.user = none →
      (start_session env q now nowTs pid).1 = (false, none, some "Not authenticated") ∧
      (start_session env q now nowTs pid).2.1 = q) ∧
    (∀ u, env.user = some u → env.profileRows = .ok [] →
      (start_session env q now nowTs pid).1 = (false, none, some "User profile not found") ∧
      (start_session env q now nowTs pid).2.1 = q) ∧
    (∀ u m, env.user = some u → env.profileRows = .error m →
      (start_session env q now nowTs pid).1 = (false, none, some m) ∧
      (start_session env q now nowTs pid).2.1 =
        startRetryEvent q pid env.stored_user_id nowTs) ∧
    (∀ u ps m, env.user = some u → env.profileRows = .ok ps → ps ≠ [] →
      env.bookingRows = .error m →
      (start_session env q now nowTs pid).1 = (false, none, some m) ∧
      (start_session env q now nowTs pid).2.1 =
        startRetryEvent q pid env.stored_user_id nowTs) ∧
    (∀ u ps m, env.user = some u → env.profileRows = .ok ps → ps ≠ [] →
      env.bookingRows = .ok [] → env.bookingInsertRows = .error m →
      (start_session env q now nowTs pid).1 = (false, none, some m) ∧
      (start_session env q now nowTs pid).2.1 =
        startRetryEvent q pid env.stored_user_id nowTs) ∧
    (∀ u ps bs m, env.user = some u → env.profileRows = .ok ps → ps ≠ [] →
      (env.bookingRows = .ok bs ∧ bs ≠ [] ∨
        env.bookingRows = .ok [] ∧ env.bookingInsertRows = .ok bs ∧ bs ≠ []) →
      env.consumptionInsertRows = .error m →
      (start_session env q now nowTs pid).1 = (false, none, some m) ∧
      (start_session env q now nowTs pid).2.1 =
        startRetryEvent q pid env.stored_user_id nowTs) ∧
    (∀ u ps, env.user = some u → env.profileRows = .ok ps → ps ≠ [] →
      env.bookingRows = .ok [] → env.bookingInsertRows = .ok [] →
      (start_session env q now nowTs pid).1 =
        (false, none, some "Failed to create gateway booking") ∧
      (start_session env q now nowTs pid).2.1 = q) ∧
    (∀ u ps bs, env.user = some u → env.profileRows = .ok ps → ps ≠ [] →
      (env.bookingRows = .ok bs ∧ bs ≠ [] ∨
        env.bookingRows = .ok [] ∧ env.bookingInsertRows = .ok bs ∧ bs ≠ []) →
      env.consumptionInsertRows = .ok [] →
      (start_session env q now nowTs pid).1 =
        (false, none, some "Failed to create consumption record") ∧
      (start_session env q now nowTs pid).2.1 = q) ∧
    (∀ uid, startRetryEvent q pid uid nowTs =
      q ++ [{ type := "start_session", data := .startData (some pid) none uid,
              created_at := nowTs, attempts := 0, last_attempt := none }]) := by
  refine ⟨?_, ?_, ?_, ?_, ?_, ?_, ?_, ?_, fun uid => rfl⟩
  · intro hu
    simp [start_session, hu]
  · intro u hu hp
    simp [start_session, hu, hp]
  · intro u m hu hp
    simp [start_session, hu, hp]
  · intro u ps m hu hp hps hb
    obtain ⟨p, ps', rfl⟩ := List.exists_cons_of_ne_nil hps
    simp [start_session, hu, hp, hb]
  · intro u ps m hu hp hps hb hbi
    obtain ⟨p, ps', rfl⟩ := List.exists_cons_of_ne_nil hps
    simp [start_session, hu, hp, hb, hbi]
  · intro u ps bs m hu hp hps hcase hc
    obtain ⟨p, ps', rfl⟩ := List.exists_cons_of_ne_nil hps
    rcases hcase with ⟨hb, hbs⟩ | ⟨hb, hbi, hbs⟩
    · obtain ⟨b, bs', rfl⟩ := List.exists_cons_of_ne_nil hbs
      simp [start_session, startConsumptionStep, hu, hp, hb, hc]
    · obtain ⟨b, bs', rfl⟩ := List.exists_cons_of_ne_nil hbs
      simp [start_session, startConsumptionStep, hu, hp, hb, hbi, hc]
  · intro u ps hu hp hps hb hbi
    obtain ⟨p, ps', rfl⟩ := List.exists_cons_of_ne_nil hps
    simp [start_session, hu, hp, hb, hbi]
  · intro u ps bs hu hp hps hcase hc
    obtain ⟨p, ps', rfl⟩ := List.exists_cons_of_ne_nil hps
    rcases hcase with ⟨hb, hbs⟩ | ⟨hb, hbi, hbs⟩
    · obtain ⟨b, bs', rfl⟩ := List.exists_cons_of_ne_nil hbs
      simp [start_session, startConsumptionStep, hu, hp, hb, hc]
    · obtain ⟨b, bs', rfl⟩ := List.exists_cons_of_ne_nil hbs
      simp [start_session, startConsumptionStep, hu, hp, hb, hbi, hc]

/-- Witness for C1: a raised exception during the placeholder insert
enqueues the `StartSession` retry event. -/
theorem c1_witness :
    (start_session envBookingRaise [] nowDT 0 "P1").1 =
      (false, none, some "network down") ∧
    (start_session envBookingRaise [] nowDT 0 "P1").2.1 =
      startRetryEvent [] "P1" (some "U1") 0 :=
  (c1_enqueue_policy envBookingRaise [] nowDT 0 "P1").2.2.2.2.1
    "U1" ["U1"] "network down" rfl rfl (by decide) rfl rfl

/-- C7: with no matching confirmed booking (the filtered booking query,
issued with status `confirmed` and `start_time ≤ now ≤ end_time` bounds,
returns no rows), `start_session` inserts a placeholder booking with
`status = "cancelled"`, `start_time = now`, `end_time` = the same calendar
day at 23:59:59, and the fixed placeholder marker in `notes`, then inserts a
consumption row with `status = "active"` whose `booking_id` is the id the
store returned for the placeholder. -/
theorem c7_placeholder (env : StartEnv) (q : List Event) (now : NaiveDT)
    (nowTs : ℚ) (pid u p : String) (ps : List String) (nb : BookingRow)
    (bs : List BookingRow)
    (hu : env.user = some u) (hp : env.profileRows = .ok (p :: ps))
    (hb : env.bookingRows = .ok []) (hbi : env.bookingInsertRows = .ok (nb :: bs)) :
    (start_session env q now nowTs pid).2.2 =
      [GwRequest.profileSelect u,
       GwRequest.bookingSelect u pid "confirmed"
         { dt := now, offsetMinutes := some 0 } { dt := now, offsetMinutes := some 0 },
       GwRequest.bookingInsert
         { user_id := u, product_id := pid,
           start_time := { dt := now, offsetMinutes := some 0 },
           end_time := { dt := { now with hour := 23, minute := 59, second := 59 },
                         offsetMinutes := some 0 },
           status := "cancelled", legal_agreement_accepted := true,
           notes := "Gateway session - automatic booking placeholder" },
       GwRequest.consumptionInsert
         { product_id := pid, user_id := u, booking_id := some nb.id,
           start_time := { dt := now, offsetMinutes := some 0 },
           status := "active" }] := by
  rcases hc : env.consumptionInsertRows with m | rows
  · simp [start_session, startConsumptionStep, hu, hp, hb, hbi, hc]
  · rcases rows with _ | ⟨c, cs⟩ <;>
      simp [start_session, startConsumptionStep, hu, hp, hb, hbi, hc]

/-- Witness for C7 at Scenario D's concrete environment. -/
theorem c7_witness :
    (start_session envPlaceholder [] nowDT 0 "P1").2.2 =
      [GwRequest.profileSelect "U1",
       GwRequest.bookingSelect "U1" "P1" "confirmed" startDT startDT,
       GwRequest.bookingInsert
         { user_id := "U1", product_id := "P1", start_time := startDT,
           end_time := { dt := { nowDT with hour := 23, minute := 59, second := 59 },
                         offsetMinutes := some 0 },
           status := "cancelled", legal_agreement_accepted := true,
           notes := "Gateway session - automatic booking placeholder" },
       GwRequest.consumptionInsert
         { product_id := "P1", user_id := "U1", booking_id := some "B7",
           start_time := startDT, status := "active" }] :=
  c7_placeholder envPlaceholder [] nowDT 0 "P1" "U1" "U1" []
    { id := "B7" } [] rfl rfl rfl rfl

/-! ## Claim theorems: stop_session -/

/-- C4 counterexample: the gateway accepts the update yet the re-read shows
`end_time` unchanged; `stop_session` returns "Update verification failed"
but the offline queue stays empty — no `StopSession` retry event is
enqueued, contrary to the claim. -/
theorem c4_counterexample :
    (stop_session envVerifyFail [] nowDT 0 "S1").1 =
      (false, some "Update verification failed") ∧
    (stop_session envVerifyFail [] nowDT 0 "S1").2.1 = [] := by
  decide

/-- C4 amended: when the update is accepted but the re-read shows `end_time`
unchanged (or missing), `stop_session` reports "Update verification failed"
to the caller WITHOUT enqueueing a `StopSession` retry event: this outcome
is a plain return, not a raised exception, so neither exception handler
runs and the queue is surfaced unchanged. -/
theorem c4_verification_no_enqueue (env : StopEnv) (q : List Event)
    (now : NaiveDT) (nowTs : ℚ) (sid : String) (row : ConsRowR)
    (rest : List ConsRowR) (raw : PyStr) (sdt : PyDateTime) (v : VerifyRowR)
    (vs : List VerifyRowR)
    (hr : env.consRows = .ok (row :: rest)) (hst : row.start_time = some raw)
    (hparse : fromisoformat (normalizeTs raw) = some sdt)
    (hup : env.updateError = .ok none) (hv : env.verifyRows = .ok (v :: vs))
    (hverify : ¬ (truthyStr v.end_time = true ∧ v.end_time ≠ row.end_time)) :
    (stop_session env q now nowTs sid).1 =
      (false, some "Update verification failed") ∧
    (stop_session env q now nowTs sid).2.1 = q := by
  simp [stop_session, hr, hst, hparse, hup, hv, hverify]

/-- Witness for C4 (Scenario F's environment): concrete unchanged re-read. -/
theorem c4_witness :
    (stop_session envVerifyFail [] laterDT 0 "S1").1 =
      (false, some "Update verification failed") ∧
    (stop_session envVerifyFail [] laterDT 0 "S1").2.1 = [] :=
  c4_verification_no_enqueue envVerifyFail [] laterDT 0 "S1"
    { start_time := some rawStart, end_time := some "E0".toList } []
    rawStart { dt := nowDT, offsetMinutes := some 0 }
    { end_time := some "E0".toList } []
    rfl rfl (by decide) rfl rfl (by decide)

/-- C6: for a session whose stored `start_time` parses (after normalising a
UTC marker to a `+00:00` offset) to the instant `T`, `stop_session` called
`d ≥ 0` seconds later sends an update whose `end_time` is the UTC-aware now,
whose `duration_seconds` is `⌊d⌋` whole seconds, and whose `status` is
`"completed"`; and the normalisation rewrites a trailing `'Z'` to
`"+00:00"`. -/
theorem c6_duration (env : StopEnv) (q : List Event) (now : NaiveDT)
    (nowTs : ℚ) (sid : String) (row : ConsRowR) (rest : List ConsRowR)
    (raw : PyStr) (sdt : PyDateTime) (d : ℚ)
    (hr : env.consRows = .ok (row :: rest)) (hst : row.start_time = some raw)
    (hparse : fromisoformat (normalizeTs raw) = some sdt)
    (hd : instantQ { dt := now, offsetMinutes := some 0 } - instantQ (awareFix sdt) = d)
    (hd0 : 0 ≤ d) :
    (stop_session env q now nowTs sid).2.2 =
      some { end_time := { dt := now, offsetMinutes := some 0 },
             duration_seconds := ⌊d⌋, status := "completed" } ∧
    (∀ base : PyStr, 'Z' ∉ base →
      normalizeTs (base ++ ['Z']) = base ++ "+00:00".toList) := by
  refine ⟨?_, normalizeTs_trailing⟩
  have hpy : pyInt (instantQ { dt := now, offsetMinutes := some 0 }
      - instantQ (awareFix sdt)) = ⌊d⌋ := by
    rw [hd, pyInt, if_pos hd0]
  rcases hup : env.updateError with m | om
  · simp [stop_session, hr, hst, hparse, hup, hpy]
  · rcases om with _ | m
    · rcases hv : env.verifyRows with m' | vrows
      · simp [stop_session, hr, hst, hparse, hup, hv, hpy]
      · rcases vrows with _ | ⟨v, vs⟩
        · simp [stop_session, hr, hst, hparse, hup, hv, hpy]
        · by_cases hc : truthyStr v.end_time = true ∧ v.end_time ≠ row.end_time
          · simp [stop_session, hr, hst, hparse, hup, hv, hc, hpy]
          · simp [stop_session, hr, hst, hparse, hup, hv, hc, hpy]
    · simp [stop_session, hr, hst, hparse, hup, hpy]

/-- Witness for C6, Scenario E: stored start `2024-05-01T12:00:00+00:00`,
stop at `12:02:05` the same day → `duration_seconds = 125`,
`status = "completed"`. -/
theorem c6_witness :
    (stop_session envScenarioE [] laterDT 0 "S1").2.2 =
      some { end_time := { dt := laterDT, offsetMinutes := some 0 },
             duration_seconds := 125, status := "completed" } ∧
    (∀ base : PyStr, 'Z' ∉ base →
      normalizeTs (base ++ ['Z']) = base ++ "+00:00".toList) := by
  have h := c6_duration envScenarioE [] laterDT 0 "S1"
    { start_time := some rawStart, end_time := none } [] rawStart
    { dt := nowDT, offsetMinutes := some 0 } 125
    rfl rfl (by decide)
    (by norm_num [instantQ, awareFix, daysFromCivil, laterDT, nowDT])
    (by norm_num)
  have hfloor : ⌊(125 : ℚ)⌋ = (125 : ℤ) := by norm_num
  rw [hfloor] at h
  exact h
